import Mathlib

/-!
Verification development for `generate_sample_pdf.py`, a one-shot generator
of a synthetic financial-report document.  The script defines a fixed
four-quarter dataset, builds styled content fragments (cover page, narrative
paragraphs, a financial table, a revenue bar chart), concatenates them in a
fixed order and hands them to an external layout engine which writes the
final file.

The shallow embedding below translates the content-assembly logic of the
script.  Geometry values (spacer sizes, chart coordinates) are modelled as
exact rationals; EPS values, which in the source are exact two-decimal
literals (1.56, 1.95, 2.28, 2.61), are modelled as integer cents, and the
`%.2f` rendering of their sum is modelled by `fmt2` (the floating-point sum
8.4000000000000004 renders to the same two-decimal string as the exact
cents sum).  The external layout engine (pagination, rasterization, byte
encoding) is outside the program and is not modelled; the filesystem calls
the script itself makes (`mkdir(parents=True, exist_ok=True)` and the final
write) are modelled over an explicit filesystem state.
-/

set_option maxRecDepth 40000

namespace BlogDemo

/-- Constant `COMPANY` of the script. -/
def COMPANY : String := "Acme Corp"

/-- Constant `YEAR` of the script. -/
def YEAR : Nat := 2024

/-- One record of `QUARTERLY_DATA`: (quarter label, revenue $M, net income
$M, EPS in cents — the source stores EPS as an exact two-decimal float). -/
structure QRec where
  quarter : String
  revenue : Nat
  netIncome : Nat
  epsCents : Nat
deriving DecidableEq, Repr

/-- The fixed dataset `QUARTERLY_DATA` of the script. -/
def QUARTERLY_DATA : List QRec :=
  [ ⟨"Q1 2024", 2105, 312, 156⟩,
    ⟨"Q2 2024", 2498, 389, 195⟩,
    ⟨"Q3 2024", 2847, 456, 228⟩,
    ⟨"Q4 2024", 3102, 521, 261⟩ ]

/-- Group a reversed digit list into blocks of three (least-significant
digits first), as the thousands separator does. -/
def chunk3 : List Char → List (List Char)
  | [] => []
  | a :: b :: c :: d :: rest => [a, b, c] :: chunk3 (d :: rest)
  | l => [l]

/-- The Python rendering `f"{n:,}"`: thousands-separated natural number. -/
def commaFormat (n : Nat) : String :=
  let ds := (Nat.toDigits 10 n).reverse
  String.intercalate "," ((((chunk3 ds).map List.reverse).reverse).map String.mk)

/-- The Python rendering `f"{x:.2f}"` of an exact value given in cents. -/
def fmt2 (c : Nat) : String :=
  let ip := c / 100
  let fp := c % 100
  Nat.repr ip ++ "." ++ (if fp < 10 then "0" ++ Nat.repr fp else Nat.repr fp)

/-- One point per unit, 72 points to the inch (`reportlab.lib.units.inch`). -/
def inch : ℚ := 72

/-- The `VerticalBarChart` object configured by `revenue_chart`: position,
size, data series, category names, value-axis range and the bar styling
set by the source. -/
structure BarChart where
  x : ℚ
  y : ℚ
  width : ℚ
  height : ℚ
  data : List (List Nat)
  categoryNames : List String
  valueMin : ℚ
  valueMax : ℚ
  valueStep : ℚ
  barFillColor : String
  barStrokeColor : String
  barStrokeWidth : ℚ
  barLabelNudge : ℚ
  barLabelFormat : String
deriving DecidableEq, Repr

/-- The `String` graphics element overlaid on the chart drawing as title. -/
structure ChartString where
  x : ℚ
  y : ℚ
  text : String
  textAnchor : String
  fontName : String
  fontSize : ℚ
deriving DecidableEq, Repr

/-- The `Drawing` flowable returned by `revenue_chart`: a canvas holding
the bar chart and the overlaid title string. -/
structure ChartDrawing where
  width : ℚ
  height : ℚ
  chart : BarChart
  title : ChartString
deriving DecidableEq, Repr

/-- Presentation fragments (platypus flowables) built by the script. -/
inductive Flowable where
  | para (text : String) (style : String)
  | spacer (width : ℚ) (height : ℚ)
  | tableF (data : List (List String)) (colWidths : List ℚ)
  | pageBreak
  | drawingF (d : ChartDrawing)
deriving DecidableEq, Repr

/-- Function `cover_page`: spacer, title, subtitle, spacer, contact/publication
paragraph, and the forced page break. -/
def cover_page : List Flowable :=
  [ .spacer 1 (2 * inch),
    .para COMPANY "CoverTitle",
    .para ("Quarterly Earnings Report &mdash; Fiscal Year " ++ Nat.repr YEAR)
      "CoverSubtitle",
    .spacer 1 ((1/2 : ℚ) * inch),
    .para "Prepared for Investors and Analysts<br/>Published: January 15, 2025"
      "CoverSubtitle",
    .pageBreak ]

/-- Function `narrative_section` as a function of the module-level dataset.  The
source body reads only the `COMPANY` and `YEAR` globals — every financial
figure in the prose is a hardcoded literal — so the dataset argument is
unused. -/
def narrative_sectionOf (_data : List QRec) : List Flowable :=
  [ .para "Executive Summary" "SectionHead",
    .para (COMPANY ++ " delivered record-breaking results in fiscal year "
      ++ Nat.repr YEAR ++ ", "
      ++ "driven by strong demand across our cloud computing and enterprise "
      ++ "AI product lines. Total annual revenue reached $10,552 million, "
      ++ "representing year-over-year growth of 34%. The company continued to "
      ++ "invest in next-generation GPU architectures and expanded its data "
      ++ "centre footprint in three new regions.") "BodyJustified",
    .para ("Third-quarter performance was particularly notable, with revenue of "
      ++ "$2,847 million and net income of $456 million. This was driven by "
      ++ "a 42% increase in data-centre revenue and the successful launch of "
      ++ "our new inference acceleration platform. Earnings per share for Q3 "
      ++ "came in at $2.28, exceeding consensus estimates by $0.12.")
      "BodyJustified",
    .para ("Looking ahead, management expects continued momentum in Q1 2025, "
      ++ "with revenue guidance of $3,300 &ndash; $3,500 million. The company "
      ++ "announced a $2 billion share repurchase programme and increased its "
      ++ "quarterly dividend by 15%.") "BodyJustified",
    .spacer 1 ((3/10 : ℚ) * inch) ]

/-- Function `narrative_section` applied to the shipped dataset. -/
def narrative_section : List Flowable := narrative_sectionOf QUARTERLY_DATA

/-- The `table_data` list built inside `financial_table`: a header row,
one formatted row per dataset record, and the annual-totals row computed
by summation over the dataset. -/
def table_dataOf (data : List QRec) : List (List String) :=
  let header := ["Quarter", "Revenue ($M)", "Net Income ($M)", "EPS ($)"]
  let rows := data.map fun r =>
    [r.quarter, commaFormat r.revenue, commaFormat r.netIncome, fmt2 r.epsCents]
  let total_rev := (data.map (·.revenue)).sum
  let total_ni := (data.map (·.netIncome)).sum
  let total_eps := (data.map (·.epsCents)).sum
  header :: (rows ++
    [["FY 2024 Total", commaFormat total_rev, commaFormat total_ni, fmt2 total_eps]])

/-- Function `financial_table` as a function of the module-level dataset: section
heading, the styled table, and the caption paragraph. -/
def financial_tableOf (data : List QRec) : List Flowable :=
  [ .para "Quarterly Financial Highlights" "SectionHead",
    .tableF (table_dataOf data)
      [(8/5 : ℚ) * inch, (3/2 : ℚ) * inch, (8/5 : ℚ) * inch, (6/5 : ℚ) * inch],
    .para ("Table 1: " ++ COMPANY ++ " Quarterly Financial Highlights, FY "
      ++ Nat.repr YEAR) "TableCaption" ]

/-- Function `financial_table` applied to the shipped dataset. -/
def financial_table : List Flowable := financial_tableOf QUARTERLY_DATA

/-- Function `revenue_chart` as a function of the module-level dataset: a 450 by 260
drawing holding the configured vertical bar chart and the overlaid title. -/
def revenue_chartOf (data : List QRec) : ChartDrawing :=
  ⟨450, 260,
    ⟨60, 40, 350, 180,
      [data.map (·.revenue)],
      data.map (·.quarter),
      0, 3500, 500,
      "#76B900", "#5A8F00", (1/2 : ℚ),
      10, "%d"⟩,
    ⟨225, 240, COMPANY ++ " Quarterly Revenue ($M) — FY " ++ Nat.repr YEAR,
      "middle", "Helvetica-Bold", 11⟩⟩

/-- Function `revenue_chart` applied to the shipped dataset. -/
def revenue_chart : ChartDrawing := revenue_chartOf QUARTERLY_DATA

/-- The `elements` list assembled by `build_pdf` before the render call:
cover block, narrative block, table block, a spacer, then the chart block
(section heading, drawing, caption). -/
def build_elementsOf (data : List QRec) : List Flowable :=
  cover_page ++ narrative_sectionOf data ++ financial_tableOf data
    ++ [.spacer 1 ((2/5 : ℚ) * inch)]
    ++ [ .para "Revenue Trend" "SectionHead",
         .drawingF (revenue_chartOf data),
         .para ("Figure 1: " ++ COMPANY ++ " Quarterly Revenue Trend, FY "
           ++ Nat.repr YEAR) "TableCaption" ]

/-- The fragment list of the shipped run. -/
def build_elements : List Flowable := build_elementsOf QUARTERLY_DATA

/-- Text of a paragraph flowable, if it is one. -/
def paraText? : Flowable → Option String
  | .para t _ => some t
  | _ => none

/-- Style name of a paragraph flowable, if it is one. -/
def paraStyle? : Flowable → Option String
  | .para _ s => some s
  | _ => none

/-- Whether a flowable is the table. -/
def isTableF : Flowable → Bool
  | .tableF _ _ => true
  | _ => false

/-- The rendered per-bar value labels: the single data series of the chart
passed through its `barLabelFormat`, of which the source only uses the
integer format `%d`. -/
def barLabelsOf (ch : BarChart) : List String :=
  (ch.data.headD []).map fun v =>
    if ch.barLabelFormat = "%d" then Nat.repr v else ""

/-- Whether `pat` occurs as a contiguous run inside the second list. -/
def hasSubList (pat : List Char) : List Char → Bool
  | [] => decide (pat = [])
  | c :: rest =>
    decide (pat = (c :: rest).take pat.length) || hasSubList pat rest

/-- Whether `pat` occurs as a substring of `s`. -/
def hasSubStr (s pat : String) : Bool := hasSubList pat.toList s.toList

/-- Ambient state of one run that the process could in principle observe:
wall-clock time and environment variables.  The source reads neither while
assembling content. -/
structure RunEnv where
  wallClock : Nat
  envVars : List (String × String)
deriving Repr

/-- The content assembly as a function of the ambient run environment.
The source consults no clock, randomness or environment variable while
building the fragment list, so the result does not depend on `env`. -/
def assemble_content (_env : RunEnv) : List Flowable := build_elements

/-- A filesystem path as a list of components, relative to the directory
holding the script. -/
abbrev FsPath := List String

/-- Filesystem state: the set of existing directories and a map from file
paths to file contents. -/
structure FS where
  dirs : List FsPath
  files : List (FsPath × String)
deriving Repr

/-- All ancestor paths of a path, the path itself included. -/
def ancestors : FsPath → List FsPath
  | [] => []
  | d :: rest => [d] :: (ancestors rest).map (fun q => d :: q)

/-- The call `Path.mkdir(parents=True, exist_ok=True)`: create the directory and
every missing ancestor; never an error whether or not they exist. -/
def mkdirParents (fs : FS) (p : FsPath) : FS :=
  ⟨fs.dirs ++ (ancestors p).filter (fun q => ¬ fs.dirs.contains q), fs.files⟩

/-- Write a file: the parent directory must exist (the open-for-write of
the layout engine fails otherwise); an existing file at the path is replaced
unconditionally. -/
def writeFileFS (fs : FS) (p : FsPath) (content : String) : Option FS :=
  let parent := p.dropLast
  if parent = [] ∨ fs.dirs.contains parent then
    some ⟨fs.dirs, (p, content) :: fs.files.filter (fun e => decide (e.1 ≠ p))⟩
  else
    none

/-- Content of the file at `p`, if present. -/
def lookupFile (fs : FS) (p : FsPath) : Option String :=
  (fs.files.find? (fun e => decide (e.1 = p))).map (·.2)

/-- Constant `OUTPUT_DIR`: `Path(__file__).parent / "data"`. -/
def OUTPUT_DIR : FsPath := ["data"]

/-- Constant `OUTPUT_PDF`: `OUTPUT_DIR / "sample_financial_report.pdf"`. -/
def OUTPUT_PDF : FsPath := ["data", "sample_financial_report.pdf"]

/-- The filesystem effect of one run: the module-level
`OUTPUT_DIR.mkdir(parents=True, exist_ok=True)` followed by the render
call writing `bytes` (the encoded document, produced by the external
layout engine) to `OUTPUT_PDF`. -/
def runProgram (fs : FS) (bytes : String) : Option FS :=
  writeFileFS (mkdirParents fs OUTPUT_DIR) OUTPUT_PDF bytes

/-- Mutable module state of the running script; `QUARTERLY_DATA` is its
only module-level data object the content builders touch. -/
structure ProgState where
  quarterly_data : List QRec
deriving Repr

/-- Function `cover_page` threaded through the module state: the source performs no
assignment or in-place mutation, so the state is returned unchanged. -/
def cover_page_st (s : ProgState) : List Flowable × ProgState :=
  (cover_page, s)

/-- Function `narrative_section` threaded through the module state; no mutation. -/
def narrative_section_st (s : ProgState) : List Flowable × ProgState :=
  (narrative_sectionOf s.quarterly_data, s)

/-- Function `financial_table` threaded through the module state; it reads
`QUARTERLY_DATA` (list comprehension and three sums) and appends only to
its local `rows` list, never to the dataset. -/
def financial_table_st (s : ProgState) : List Flowable × ProgState :=
  (financial_tableOf s.quarterly_data, s)

/-- Function `revenue_chart` threaded through the module state; it reads
only the revenue and quarter columns of the dataset. -/
def revenue_chart_st (s : ProgState) : ChartDrawing × ProgState :=
  (revenue_chartOf s.quarterly_data, s)

/-- Full content assembly of `build_pdf` threaded through the module
state. -/
def build_elements_st (s : ProgState) : List Flowable × ProgState :=
  (build_elementsOf s.quarterly_data, s)

/-- Paragraph text of the narrative fragment at index `i` (empty when out
of range or not a paragraph). -/
def narrP (i : Nat) : String :=
  (paraText? (narrative_section.getD i Flowable.pageBreak)).getD ""

/-- C1: for the fixed four-quarter dataset, the annual totals computed by
summation in the table-building routine equal revenue 10552 and net income
1678, and the EPS sum renders as "8.40" at two-decimal precision; the
totals row of the built table carries exactly these renderings. -/
theorem C1_annual_totals :
    (QUARTERLY_DATA.map (·.revenue)).sum = 10552 ∧
    (QUARTERLY_DATA.map (·.netIncome)).sum = 1678 ∧
    fmt2 ((QUARTERLY_DATA.map (·.epsCents)).sum) = "8.40" ∧
    (table_dataOf QUARTERLY_DATA).getLast? =
      some ["FY 2024 Total", "10,552", "1,678", "8.40"] := by decide

/-- C2: the table built by the table-building routine has exactly 6 rows —
the header row, one data row per record of the four-quarter dataset, and a
totals row — and each numeric cell of the totals row is the rendering of
the column-wise sum of the values rendered in the four data rows. -/
theorem C2_table_rows :
    (table_dataOf QUARTERLY_DATA).length = 6 ∧
    (table_dataOf QUARTERLY_DATA).head? =
      some ["Quarter", "Revenue ($M)", "Net Income ($M)", "EPS ($)"] ∧
    ((table_dataOf QUARTERLY_DATA).drop 1).take 4 =
      QUARTERLY_DATA.map (fun r =>
        [r.quarter, commaFormat r.revenue, commaFormat r.netIncome,
         fmt2 r.epsCents]) ∧
    QUARTERLY_DATA.length = 4 ∧
    (table_dataOf QUARTERLY_DATA).getLast? =
      some ["FY 2024 Total",
        commaFormat ((QUARTERLY_DATA.map (·.revenue)).sum),
        commaFormat ((QUARTERLY_DATA.map (·.netIncome)).sum),
        fmt2 ((QUARTERLY_DATA.map (·.epsCents)).sum)] := by decide

/-- C3: the chart built by the chart-building routine has a value axis
from 0 to 3500 with step 500, exactly one data series holding the four
revenue values in dataset order, category names equal to the four quarter
labels, and per-bar labels rendering each integer revenue value through
the `%d` format. -/
theorem C3_chart_axis_and_bars :
    revenue_chart.chart.valueMin = 0 ∧
    revenue_chart.chart.valueMax = 3500 ∧
    revenue_chart.chart.valueStep = 500 ∧
    revenue_chart.chart.data = [QUARTERLY_DATA.map (·.revenue)] ∧
    (revenue_chart.chart.data.headD []).length = 4 ∧
    revenue_chart.chart.categoryNames = QUARTERLY_DATA.map (·.quarter) ∧
    revenue_chart.chart.categoryNames =
      ["Q1 2024", "Q2 2024", "Q3 2024", "Q4 2024"] ∧
    revenue_chart.chart.barLabelFormat = "%d" ∧
    barLabelsOf revenue_chart.chart = ["2105", "2498", "2847", "3102"] :=
  ⟨rfl, rfl, rfl, by decide, by decide, by decide, by decide, rfl, by decide⟩

/-- C4: the assembled fragment sequence contains exactly one explicit page
break; it is the last fragment of the cover block, and the fragment
directly after the cover block is the first narrative fragment (the
section heading of the executive summary). -/
theorem C4_single_page_break :
    (build_elements.countP (fun f => decide (f = Flowable.pageBreak))) = 1 ∧
    build_elements.take cover_page.length = cover_page ∧
    cover_page.getLast? = some Flowable.pageBreak ∧
    (build_elements.drop cover_page.length).take narrative_section.length
      = narrative_section ∧
    paraText? ((build_elements.drop cover_page.length).headD Flowable.pageBreak)
      = some "Executive Summary" :=
  ⟨by decide, rfl, rfl, rfl, rfl⟩

/-- C5: the document assembly produces, in order, the cover block (ending
in the forced page break), the narrative block (three justified prose
paragraphs), the tabular block (heading, one table, caption), a spacer,
and the chart block (heading, drawing with overlaid title, caption); the
fragment list is exactly this concatenation. -/
theorem C5_assembly_order :
    build_elements =
      cover_page ++ narrative_section ++ financial_table
        ++ [Flowable.spacer 1 ((2/5 : ℚ) * inch)]
        ++ [Flowable.para "Revenue Trend" "SectionHead",
            Flowable.drawingF revenue_chart,
            Flowable.para ("Figure 1: " ++ COMPANY
              ++ " Quarterly Revenue Trend, FY " ++ Nat.repr YEAR)
              "TableCaption"] ∧
    cover_page.getLast? = some Flowable.pageBreak ∧
    (narrative_section.countP
      (fun f => decide (paraStyle? f = some "BodyJustified"))) = 3 ∧
    (financial_table.countP isTableF) = 1 ∧
    financial_table.getLast?.bind paraText? =
      some ("Table 1: " ++ COMPANY ++ " Quarterly Financial Highlights, FY "
        ++ Nat.repr YEAR) ∧
    revenue_chart.title.text =
      COMPANY ++ " Quarterly Revenue ($M) — FY " ++ Nat.repr YEAR :=
  ⟨rfl, rfl, by decide, by decide, rfl, rfl⟩

/-- C6: the content assembly is deterministic — it reads no clock,
randomness or environment variable, so two runs in arbitrary ambient
environments produce identical fragment content. -/
theorem C6_deterministic_assembly (e1 e2 : RunEnv) :
    assemble_content e1 = assemble_content e2 := rfl

/-- Closed instance of C6 at two concrete environments differing in clock
and environment variables. -/
theorem C6_deterministic_assembly_witness :
    assemble_content ⟨0, []⟩ = assemble_content ⟨86400, [("TZ", "UTC")]⟩ :=
  C6_deterministic_assembly ⟨0, []⟩ ⟨86400, [("TZ", "UTC")]⟩

/-- C7: every data row renders quarter label, thousands-separated revenue,
thousands-separated net income and two-decimal EPS, the totals row is
rendered through the same formatters, and the resulting table is the
concrete grid of formatted strings. -/
theorem C7_cell_formatting :
    (table_dataOf QUARTERLY_DATA).drop 1 =
      (QUARTERLY_DATA.map (fun r =>
        [r.quarter, commaFormat r.revenue, commaFormat r.netIncome,
         fmt2 r.epsCents]))
      ++ [["FY 2024 Total",
            commaFormat ((QUARTERLY_DATA.map (·.revenue)).sum),
            commaFormat ((QUARTERLY_DATA.map (·.netIncome)).sum),
            fmt2 ((QUARTERLY_DATA.map (·.epsCents)).sum)]] ∧
    table_dataOf QUARTERLY_DATA =
      [["Quarter", "Revenue ($M)", "Net Income ($M)", "EPS ($)"],
       ["Q1 2024", "2,105", "312", "1.56"],
       ["Q2 2024", "2,498", "389", "1.95"],
       ["Q3 2024", "2,847", "456", "2.28"],
       ["Q4 2024", "3,102", "521", "2.61"],
       ["FY 2024 Total", "10,552", "1,678", "8.40"]] := by decide

/-- C8: for every prior filesystem state, the run creates the output
directory if missing (the module-level mkdir with parents and exist-ok)
before the render call, the write succeeds, and the target file afterwards
holds exactly the newly rendered bytes — overwriting any pre-existing
file without error. -/
theorem C8_mkdir_and_overwrite (fs : FS) (bytes : String) :
    ∃ g, runProgram fs bytes = some g ∧
      OUTPUT_DIR ∈ g.dirs ∧ lookupFile g OUTPUT_PDF = some bytes := by
  unfold runProgram writeFileFS mkdirParents lookupFile OUTPUT_DIR OUTPUT_PDF
  by_cases h : fs.dirs.contains ["data"]
  all_goals
    simp only [ancestors, List.map_nil, List.map_cons, List.filter, h,
      Bool.not_true, Bool.not_false, List.filter_nil]
  all_goals simp [List.contains, List.elem_eq_mem, List.dropLast] at h ⊢
  all_goals simp [h]

/-- Closed instance of C8: starting from a filesystem with no output
directory but a stale file recorded at the output path, the run succeeds
and replaces the file content. -/
theorem C8_mkdir_and_overwrite_witness :
    ∃ g, runProgram ⟨[], [(OUTPUT_PDF, "old bytes")]⟩ "new bytes" = some g ∧
      OUTPUT_DIR ∈ g.dirs ∧
      lookupFile g OUTPUT_PDF = some "new bytes" :=
  C8_mkdir_and_overwrite ⟨[], [(OUTPUT_PDF, "old bytes")]⟩ "new bytes"

/-- C9: the quarterly dataset is never mutated — each content-building
routine and the full assembly leave the module state unchanged, and after
full assembly over the shipped state the dataset still equals its initial
four records. -/
theorem C9_dataset_immutable (s : ProgState) :
    (cover_page_st s).2 = s ∧
    (narrative_section_st s).2 = s ∧
    (financial_table_st s).2 = s ∧
    (revenue_chart_st s).2 = s ∧
    (build_elements_st s).2 = s ∧
    (build_elements_st ⟨QUARTERLY_DATA⟩).2.quarterly_data = QUARTERLY_DATA ∧
    QUARTERLY_DATA.length = 4 :=
  ⟨rfl, rfl, rfl, rfl, rfl, rfl, rfl⟩

/-- Closed instance of C9 at the shipped module state. -/
theorem C9_dataset_immutable_witness :
    (cover_page_st ⟨QUARTERLY_DATA⟩).2 = ⟨QUARTERLY_DATA⟩ ∧
    (narrative_section_st ⟨QUARTERLY_DATA⟩).2 = ⟨QUARTERLY_DATA⟩ ∧
    (financial_table_st ⟨QUARTERLY_DATA⟩).2 = ⟨QUARTERLY_DATA⟩ ∧
    (revenue_chart_st ⟨QUARTERLY_DATA⟩).2 = ⟨QUARTERLY_DATA⟩ ∧
    (build_elements_st ⟨QUARTERLY_DATA⟩).2 = ⟨QUARTERLY_DATA⟩ ∧
    (build_elements_st ⟨QUARTERLY_DATA⟩).2.quarterly_data = QUARTERLY_DATA ∧
    QUARTERLY_DATA.length = 4 :=
  C9_dataset_immutable ⟨QUARTERLY_DATA⟩

/-- C10: the narrative block is constant — for every dataset the
narrative-building routine returns the same three justified paragraphs,
whose financial figures (10,552 / 2,847 / 456 / 2.28) are hardcoded
literals; they agree with the derived values of the shipped dataset, and
there are datasets (for example the empty one) whose derived totals differ
from the hardcoded prose, which the routine leaves unchanged. -/
theorem C10_narrative_constant :
    (∀ d : List QRec, narrative_sectionOf d = narrative_sectionOf QUARTERLY_DATA) ∧
    (narrative_section.countP
      (fun f => decide (paraStyle? f = some "BodyJustified"))) = 3 ∧
    hasSubStr (narrP 1) "$10,552 million" = true ∧
    commaFormat ((QUARTERLY_DATA.map (·.revenue)).sum) = "10,552" ∧
    hasSubStr (narrP 2) "$2,847 million" = true ∧
    hasSubStr (narrP 2) "$456 million" = true ∧
    hasSubStr (narrP 2) "$2.28" = true ∧
    (QUARTERLY_DATA.getD 2 ⟨"", 0, 0, 0⟩).quarter = "Q3 2024" ∧
    commaFormat (QUARTERLY_DATA.getD 2 ⟨"", 0, 0, 0⟩).revenue = "2,847" ∧
    commaFormat (QUARTERLY_DATA.getD 2 ⟨"", 0, 0, 0⟩).netIncome = "456" ∧
    fmt2 (QUARTERLY_DATA.getD 2 ⟨"", 0, 0, 0⟩).epsCents = "2.28" ∧
    (∃ d : List QRec, narrative_sectionOf d = narrative_sectionOf QUARTERLY_DATA ∧
      commaFormat ((d.map (·.revenue)).sum) ≠ "10,552") :=
  ⟨fun _ => rfl, by decide, by decide, by decide, by decide, by decide,
   by decide, by decide, by decide, by decide, by decide,
   ⟨[], rfl, by decide⟩⟩

end BlogDemo
